import Mathlib

/-!
Shallow embedding of the adaptive RAG data-analyst agent, translated from
src/rag_system.py, src/main.py and src/config.py.

Numeric convention: the Python code computes success scores with IEEE-754
doubles, adding and subtracting the literals 0.5, 0.3, 0.2 and clamping to
[0.0, 1.0].  Every raw sum reachable in calculate_success_score
(0.5, 0.5±0.3, 0.5+0.3+0.2, 0.5+0.3-0.3, 0.5+0.3+0.2±0.3, 0.5+0.3+0.3)
rounds, in double precision, to the double that Python's `==` identifies
with the corresponding decimal literal (0.2, 0.5, 0.7, 0.8, 1.0, or a value
above 1 that the clamp maps to 1.0).  The embedding therefore uses exact
rationals; it is extensionally faithful to the Python float computation at
every reachable point.
-/

namespace DataAnalystAgent

/-- Model of a Python runtime value, as far as the agent inspects one:
the scorer (src/rag_system.py lines 257-277) only asks whether the value is
`None`, whether it is a `dict` or `list`, and for its `len`. -/
inductive PyValue where
  | none
  | bool (b : Bool)
  | int (n : Int)
  | float (q : Rat)
  | str (s : String)
  | list (xs : List PyValue)
  | dict (kvs : List (String × PyValue))

/-- Embeds the Python test `result is None` (negated at line 262 of
src/rag_system.py, `if result is not None`). -/
def PyValue.isNone : PyValue → Bool
  | PyValue.none => true
  | _ => false

/-- Embeds `isinstance(result, (dict, list)) and len(result) > 0`
(src/rag_system.py line 266). -/
def PyValue.isNonemptyContainer : PyValue → Bool
  | PyValue.list xs => decide (0 < xs.length)
  | PyValue.dict kvs => decide (0 < kvs.length)
  | _ => false

/-- Boolean test that `needle` is a leading segment of `haystack`,
character by character. -/
def charsIsPrefixOf : List Char → List Char → Bool
  | [], _ => true
  | _ :: _, [] => false
  | a :: as, b :: bs => a == b && charsIsPrefixOf as bs

/-- Boolean test that `needle` occurs contiguously inside `haystack`. -/
def charsIsInfixOf (needle : List Char) : List Char → Bool
  | [] => charsIsPrefixOf needle []
  | b :: rest => charsIsPrefixOf needle (b :: rest) || charsIsInfixOf needle rest

/-- Embeds the Python membership test `needle in haystack` on strings:
substring containment. -/
def strContains (haystack needle : String) : Bool :=
  charsIsInfixOf needle.data haystack.data

/-- Lowercase table for the ASCII letters. -/
def lowerPairs : List (Char × Char) :=
  [('A', 'a'), ('B', 'b'), ('C', 'c'), ('D', 'd'), ('E', 'e'), ('F', 'f'),
   ('G', 'g'), ('H', 'h'), ('I', 'i'), ('J', 'j'), ('K', 'k'), ('L', 'l'),
   ('M', 'm'), ('N', 'n'), ('O', 'o'), ('P', 'p'), ('Q', 'q'), ('R', 'r'),
   ('S', 's'), ('T', 't'), ('U', 'u'), ('V', 'v'), ('W', 'w'), ('X', 'x'),
   ('Y', 'y'), ('Z', 'z')]

/-- Lowercases one character, by table lookup. -/
def lowerChar (c : Char) : Char :=
  match lowerPairs.lookup c with
  | some l => l
  | Option.none => c

/-- Embeds Python `str.lower()`: every character is mapped to its lowercase
form.  The embedding covers the ASCII letters, which is exact for the
keyword lists and for every concrete input appearing below; it is applied
only symbolically elsewhere. -/
def strLower (s : String) : String :=
  String.mk (s.data.map lowerChar)

/-- The positive-sentiment keyword list of src/rag_system.py line 272. -/
def positiveKeywords : List String := ["good", "great", "excellent", "perfect"]

/-- The negative-sentiment keyword list of src/rag_system.py line 274. -/
def negativeKeywords : List String := ["bad", "wrong", "error", "failed"]

/-- Embeds the Python builtin `max` on two numbers: the second argument is
returned exactly when it is strictly larger. -/
def pymax (a b : Rat) : Rat := if a < b then b else a

/-- Embeds the Python builtin `min` on two numbers: the second argument is
returned exactly when it is strictly smaller. -/
def pymin (a b : Rat) : Rat := if b < a then b else a

/-- Embeds `RAGAdaptiveSystem.calculate_success_score`
(src/rag_system.py lines 257-277), statement for statement:
base 0.5; `+0.3` when the result is not `None`; `+0.2` when it is a
non-empty `dict` or `list`; when truthy feedback text is supplied, `+0.3`
on a positive keyword, `elif -0.3` on a negative keyword, both checked as
case-insensitive substrings of the lowercased feedback; final
`max(0.0, min(1.0, score))`.  `user_feedback = some ""` is falsy in
Python (`if user_feedback:`), hence skips the adjustment block. -/
def calculate_success_score (result : PyValue) (user_feedback : Option String) : Rat :=
  let score : Rat := 0.5
  let score := if result.isNone then score else score + 0.3
  let score := if result.isNonemptyContainer then score + 0.2 else score
  let score :=
    match user_feedback with
    | some fb =>
      if fb = "" then score
      else
        let feedback_lower := strLower fb
        if positiveKeywords.any (fun w => strContains feedback_lower w) then score + 0.3
        else if negativeKeywords.any (fun w => strContains feedback_lower w) then score - 0.3
        else score
    | Option.none => score
  pymax 0 (pymin 1 score)

/-- Modelled from the words of the spec (section 4.4): base score 0.5, an
additive presence bonus of 0.3, an additive structure bonus of 0.2, a
feedback adjustment of +0.3 / -0.3 / 0 with the positive check taken
first, and a final clamp of the sum to [0, 1].  Written as a sum of the
four named contributions, to be compared with the sequential source
translation `calculate_success_score`.  An empty feedback string contains
no keyword, so treating it as not supplied matches either reading of the
spec. -/
def score_spec (result : PyValue) (user_feedback : Option String) : Rat :=
  let base : Rat := 0.5
  let presenceBonus : Rat := if result.isNone then 0 else 0.3
  let structureBonus : Rat := if result.isNonemptyContainer then 0.2 else 0
  let feedbackAdjust : Rat :=
    match user_feedback with
    | some fb =>
      if fb = "" then 0
      else if positiveKeywords.any (fun w => strContains (strLower fb) w) then 0.3
      else if negativeKeywords.any (fun w => strContains (strLower fb) w) then -0.3
      else 0
    | Option.none => 0
  pymax 0 (pymin 1 (base + presenceBonus + structureBonus + feedbackAdjust))

theorem clamp_bounds (x : Rat) : 0 ≤ pymax 0 (pymin 1 x) ∧ pymax 0 (pymin 1 x) ≤ 1 := by
  unfold pymax pymin
  split_ifs <;> exact ⟨by linarith, by linarith⟩

theorem clamp_congr {a b : Rat} (hab : a = b) : pymax 0 (pymin 1 a) = pymax 0 (pymin 1 b) := by
  rw [hab]

theorem calculate_eq_spec (r : PyValue) (fb : Option String) :
    calculate_success_score r fb = score_spec r fb := by
  cases fb with
  | none =>
    simp only [calculate_success_score, score_spec]
    apply clamp_congr
    split_ifs <;> ring
  | some s =>
    simp only [calculate_success_score, score_spec]
    apply clamp_congr
    split_ifs <;> ring

theorem calculate_bounds (r : PyValue) (fb : Option String) :
    0 ≤ calculate_success_score r fb ∧ calculate_success_score r fb ≤ 1 := by
  simp only [calculate_success_score]
  exact clamp_bounds _

/-- C1: `calculate_success_score` is a pure function of its two inputs,
equal to the reference heuristic `score_spec` (base 0.5, +0.3 presence
bonus, +0.2 non-empty container bonus, ±0.3 feedback adjustment with the
positive check first, clamp to [0, 1]); its value always lies in [0, 1];
and it takes the six concrete values listed in the spec. -/
theorem calculate_success_score_correct :
    (∀ r fb, calculate_success_score r fb = score_spec r fb) ∧
    (∀ r fb, 0 ≤ calculate_success_score r fb ∧ calculate_success_score r fb ≤ 1) ∧
    calculate_success_score PyValue.none Option.none = 0.5 ∧
    calculate_success_score (PyValue.int 42) Option.none = 0.8 ∧
    calculate_success_score (PyValue.list [PyValue.int 1, PyValue.int 2, PyValue.int 3])
      Option.none = 1 ∧
    calculate_success_score (PyValue.dict []) Option.none = 0.8 ∧
    calculate_success_score (PyValue.int 42) (some "This was great!") = 1 ∧
    calculate_success_score (PyValue.int 42) (some "this failed badly") = 0.5 := by
  have hgreat : (positiveKeywords.any fun w => strContains (strLower "This was great!") w)
      = true := by decide
  have hfail1 : (positiveKeywords.any fun w => strContains (strLower "this failed badly") w)
      = false := by decide
  have hfail2 : (negativeKeywords.any fun w => strContains (strLower "this failed badly") w)
      = true := by decide
  refine ⟨calculate_eq_spec, calculate_bounds, ?_, ?_, ?_, ?_, ?_, ?_⟩ <;>
    simp [calculate_success_score, PyValue.isNone, PyValue.isNonemptyContainer,
      hgreat, hfail1, hfail2] <;>
    norm_num [pymax, pymin]

/-- C10: with no feedback supplied, the scorer returns exactly one of
0.5, 0.8, 1.0, and in particular never a value below the 0.5 neutral
base. -/
theorem calculate_success_score_no_feedback_values :
    ∀ r, (calculate_success_score r Option.none = 0.5 ∨
          calculate_success_score r Option.none = 0.8 ∨
          calculate_success_score r Option.none = 1) ∧
         0.5 ≤ calculate_success_score r Option.none := by
  intro r
  cases r with
  | list xs =>
    cases xs <;>
      simp [calculate_success_score, PyValue.isNone, PyValue.isNonemptyContainer] <;>
      norm_num [pymax, pymin]
  | dict kvs =>
    cases kvs <;>
      simp [calculate_success_score, PyValue.isNone, PyValue.isNonemptyContainer] <;>
      norm_num [pymax, pymin]
  | _ =>
    simp [calculate_success_score, PyValue.isNone, PyValue.isNonemptyContainer] ;
      norm_num [pymax, pymin]

/-- Value stored under one key of a context entry metadata mapping; the
source stores strings, floats, or `None`. -/
inductive MetaValue where
  | str (s : String)
  | num (q : Rat)
  | none

/-- Input to `add_contexts`: a `{"content": ..., "metadata": ...}` record. -/
structure ContextInput where
  content : String
  metadata : List (String × MetaValue)

/-- One entry of the ChromaDB `data_analysis_context` collection: the id
assigned at insertion (line 111 of src/rag_system.py), the document text
and the metadata. -/
structure ContextEntry where
  id : String
  content : String
  metadata : List (String × MetaValue)

/-- State of the context collection. -/
structure KBState where
  entries : List ContextEntry

/-- The id string `f"context_{n}"` of src/rag_system.py line 111. -/
def mkContextId (n : Nat) : String := "context_" ++ toString n

/-- The loop body of `add_contexts` (src/rag_system.py lines 105-112):
`for i, context in enumerate(contexts)` inserts one entry per input, with
id `context_{len(collection.get()[ids-key]) + i}` where the collection
size is re-read INSIDE the loop, after the earlier inserts of the same
batch.  The model takes each insert to grow the collection by one, which
is what ChromaDB does for a fresh id; the C6 analysis below exhibits the
first point at which the scheme re-generates an existing id. -/
def addContextsLoop : KBState → Nat → List ContextInput → KBState
  | s, _, [] => s
  | s, i, c :: rest =>
    addContextsLoop
      { entries := s.entries ++
          [{ id := mkContextId (s.entries.length + i),
             content := c.content, metadata := c.metadata }] }
      (i + 1) rest

/-- Embeds `RAGAdaptiveSystem.add_contexts` (src/rag_system.py
lines 102-115), happy path of the try block. -/
def add_contexts (s : KBState) (contexts : List ContextInput) : KBState :=
  addContextsLoop s 0 contexts

/-- The five default context entries of `_initialize_knowledge_base`
(src/rag_system.py lines 75-96). -/
def default_contexts : List ContextInput :=
  [{ content := "Data scraping from web tables using scrape_table_from_url() function",
     metadata := [("type", MetaValue.str "data_source"),
                  ("category", MetaValue.str "web_scraping")] },
   { content := "SQL queries using DuckDB with run_duckdb_query() function",
     metadata := [("type", MetaValue.str "data_analysis"),
                  ("category", MetaValue.str "sql")] },
   { content := "Creating visualizations with matplotlib and encoding as base64",
     metadata := [("type", MetaValue.str "visualization"),
                  ("category", MetaValue.str "plotting")] },
   { content := "Pandas data manipulation and analysis techniques",
     metadata := [("type", MetaValue.str "data_analysis"),
                  ("category", MetaValue.str "pandas")] },
   { content := "Statistical analysis using numpy and scikit-learn",
     metadata := [("type", MetaValue.str "data_analysis"),
                  ("category", MetaValue.str "statistics")] }]

/-- Embeds `RAGAdaptiveSystem._initialize_knowledge_base`
(src/rag_system.py lines 73-100): seed the five defaults exactly when
`self.context_collection.count() == 0`. -/
def initialize_knowledge_base (s : KBState) : KBState :=
  if s.entries.length = 0 then add_contexts s default_contexts else s

/-- The `Interaction` dataclass of src/rag_system.py lines 17-26.  The
dataclass has NO `interaction_id` field; the id string built in the
`analyze` endpoint (src/main.py line 150) is returned to the client but
never stored on the object, which C7 examines through `hasattrId`. -/
structure Interaction where
  timestamp : String
  user_query : String
  generated_code : String
  execution_result : PyValue
  user_feedback : Option String
  success_score : Option Rat
  context_used : List String

/-- Embeds the Python guard
`interaction.success_score and interaction.success_score > 0.7`
(src/rag_system.py line 151 and src/main.py line 225): `None` and the
float `0.0` are falsy, otherwise the strict comparison decides. -/
def scoreQualifies : Option Rat → Bool
  | Option.none => false
  | some q => (!decide (q = 0)) && decide ((0.7 : Rat) < q)

/-- The content template of `_learn_from_successful_interaction`
(src/rag_system.py line 163): the full, untruncated generated code. -/
def learnedPatternContent (i : Interaction) : String :=
  "Successful code pattern for: " ++ i.user_query ++ "\nCode: " ++ i.generated_code

/-- The metadata of the learned-pattern entry (src/rag_system.py
lines 164-168). -/
def learnedPatternMetadata (i : Interaction) : List (String × MetaValue) :=
  [("type", MetaValue.str "learned_pattern"),
   ("success_score",
     match i.success_score with
     | some q => MetaValue.num q
     | Option.none => MetaValue.none),
   ("original_query", MetaValue.str i.user_query)]

/-- Embeds `RAGAdaptiveSystem._learn_from_successful_interaction`
(src/rag_system.py lines 157-173): the body runs under
`if interaction.generated_code:`, so an interaction whose generated code
is the empty string adds nothing. -/
def learn_from_successful_interaction (s : KBState) (i : Interaction) : KBState :=
  if i.generated_code = "" then s
  else add_contexts s [{ content := learnedPatternContent i,
                         metadata := learnedPatternMetadata i }]

/-- Process-wide state of `RAGAdaptiveSystem` as the claims observe it:
the context collection plus the interaction record (the source appends the
same interaction to the `user_interactions` collection and to
`interaction_history` back to back, lines 135-148 of src/rag_system.py,
so one list models both). -/
structure RAGState where
  contexts : KBState
  interactions : List Interaction

/-- Embeds `RAGAdaptiveSystem.add_interaction` (src/rag_system.py
lines 130-155): store the interaction, then learn from it when
`interaction.success_score and interaction.success_score > 0.7`. -/
def add_interaction (s : RAGState) (i : Interaction) : RAGState :=
  let s1 : RAGState := { s with interactions := s.interactions ++ [i] }
  if scoreQualifies i.success_score then
    { s1 with contexts := learn_from_successful_interaction s1.contexts i }
  else s1

theorem scoreQualifies_pos {q : Rat} (h : (0.7 : Rat) < q) :
    scoreQualifies (some q) = true := by
  simp [scoreQualifies, h]
  intro h0
  rw [h0] at h
  norm_num at h

theorem scoreQualifies_le {q : Rat} (h : q ≤ (0.7 : Rat)) :
    scoreQualifies (some q) = false := by
  simp [scoreQualifies, not_lt.mpr h]

theorem addContextsLoop_length (cs : List ContextInput) :
    ∀ (s : KBState) (i : Nat),
      (addContextsLoop s i cs).entries.length = s.entries.length + cs.length := by
  induction cs with
  | nil => intro s i; simp [addContextsLoop]
  | cons c rest ih =>
    intro s i
    simp [addContextsLoop, ih]
    omega

theorem add_contexts_length (s : KBState) (cs : List ContextInput) :
    (add_contexts s cs).entries.length = s.entries.length + cs.length :=
  addContextsLoop_length cs s 0

/-- C4 (amended): an interaction whose `success_score` strictly exceeds
0.7 AND whose generated code is non-empty appends exactly one new
learned-pattern context entry with the template content and the
`learned_pattern` metadata carrying the original query; an interaction
with empty generated code, a score at or below 0.7, a zero score, or no
score appends no context entry. -/
theorem add_interaction_learning :
    (∀ (s : RAGState) (i : Interaction) (q : Rat),
      i.success_score = some q → (0.7 : Rat) < q → i.generated_code ≠ "" →
      (add_interaction s i).contexts.entries =
        s.contexts.entries ++
          [{ id := mkContextId s.contexts.entries.length,
             content := "Successful code pattern for: " ++ i.user_query ++
               "\nCode: " ++ i.generated_code,
             metadata := [("type", MetaValue.str "learned_pattern"),
                          ("success_score", MetaValue.num q),
                          ("original_query", MetaValue.str i.user_query)] }]) ∧
    (∀ (s : RAGState) (i : Interaction) (q : Rat),
      i.success_score = some q → q ≤ (0.7 : Rat) →
      (add_interaction s i).contexts = s.contexts) ∧
    (∀ (s : RAGState) (i : Interaction),
      i.success_score = Option.none →
      (add_interaction s i).contexts = s.contexts) := by
  refine ⟨?_, ?_, ?_⟩
  · intro s i q hq h7 hcode
    have ht := scoreQualifies_pos h7
    simp [add_interaction, hq, ht, learn_from_successful_interaction, hcode,
      add_contexts, addContextsLoop, learnedPatternContent, learnedPatternMetadata]
  · intro s i q hq hle
    simp [add_interaction, hq, scoreQualifies_le hle]
  · intro s i hq
    simp [add_interaction, hq, scoreQualifies]

/-- Sample successful interaction used as a concrete input below. -/
def sampleInteraction : Interaction :=
  { timestamp := "2024-01-01T00:00:00"
    user_query := "sum the numbers from 1 to 10"
    generated_code := "result = sum(range(1, 11))"
    execution_result := PyValue.int 55
    user_feedback := Option.none
    success_score := some 0.8
    context_used := [] }

/-- A fresh system state with an empty context collection and no recorded
interactions. -/
def emptyRAG : RAGState := { contexts := { entries := [] }, interactions := [] }

/-- Witness for C4: the amended theorem applied to a concrete interaction
with score 0.8 and non-empty code, starting from the empty state. -/
theorem add_interaction_learning_witness :
    sampleInteraction.success_score = some 0.8 ∧ (0.7 : Rat) < 0.8 ∧
    sampleInteraction.generated_code ≠ "" ∧
    (add_interaction emptyRAG sampleInteraction).contexts.entries =
      [{ id := mkContextId 0,
         content := "Successful code pattern for: sum the numbers from 1 to 10" ++
           "\nCode: result = sum(range(1, 11))",
         metadata := [("type", MetaValue.str "learned_pattern"),
                      ("success_score", MetaValue.num 0.8),
                      ("original_query",
                       MetaValue.str "sum the numbers from 1 to 10")] }] := by
  refine ⟨rfl, by norm_num, by decide, ?_⟩
  have h := add_interaction_learning.1 emptyRAG sampleInteraction 0.8 rfl
    (by norm_num) (by decide)
  simpa [emptyRAG, sampleInteraction] using h

/-- Interaction with a qualifying score but empty generated code. -/
def emptyCodeInteraction : Interaction :=
  { timestamp := "2024-01-01T00:00:00"
    user_query := "some task"
    generated_code := ""
    execution_result := PyValue.int 1
    user_feedback := Option.none
    success_score := some 0.8
    context_used := [] }

/-- C4 counterexample: an interaction whose success score 0.8 exceeds 0.7
but whose generated code is the empty string inserts NO context entry,
contradicting the claim that every interaction with score above 0.7
inserts exactly one. -/
theorem add_interaction_empty_code_no_entry :
    emptyCodeInteraction.success_score = some 0.8 ∧ (0.7 : Rat) < 0.8 ∧
    (add_interaction emptyRAG emptyCodeInteraction).contexts.entries = [] := by
  refine ⟨rfl, by norm_num, ?_⟩
  have ht : scoreQualifies (some (0.8 : Rat)) = true := scoreQualifies_pos (by norm_num)
  simp [add_interaction, emptyCodeInteraction, ht,
    learn_from_successful_interaction, emptyRAG]

/-- The insertion trace of C6: bootstrap the empty collection (a batch of
five), then two single-entry batches, as the learning loop or the
add-context endpoint would issue them. -/
def collisionTrace : KBState :=
  add_contexts
    (add_contexts (initialize_knowledge_base { entries := [] })
      [{ content := "extra context one", metadata := [] }])
    [{ content := "extra context two", metadata := [] }]

/-- The ids assigned along `collisionTrace`, in insertion order. -/
def collisionIds : List String := collisionTrace.entries.map (fun e => e.id)

/-- C6: the id scheme `context_{len + i}`, with `len` re-read inside the
batch loop, assigns the bootstrap batch the ids context_0, 2, 4, 6, 8 and
then assigns context_5 and context_6 to the next two single inserts:
`context_6` is assigned twice, so insertion-path ids are NOT unique. -/
theorem add_contexts_id_collision :
    collisionIds =
      [mkContextId 0, mkContextId 2, mkContextId 4, mkContextId 6, mkContextId 8,
       mkContextId 5, mkContextId 6] ∧
    ¬ collisionIds.Nodup := by
  have h : collisionIds =
      [mkContextId 0, mkContextId 2, mkContextId 4, mkContextId 6, mkContextId 8,
       mkContextId 5, mkContextId 6] := rfl
  refine ⟨h, ?_⟩
  rw [h]
  intro hnd
  simp [List.nodup_cons] at hnd

/-- C9: bootstrap seeds exactly the five default entries when the
collection count is zero, is a no-op whenever the count is positive, and
is therefore idempotent: a second run against the already-populated
collection inserts nothing. -/
theorem initialize_knowledge_base_correct :
    (∀ s : KBState, s.entries.length = 0 →
      (initialize_knowledge_base s).entries.map (fun e => e.content) =
        default_contexts.map (fun c => c.content) ∧
      (initialize_knowledge_base s).entries.length = 5) ∧
    (∀ s : KBState, 0 < s.entries.length → initialize_knowledge_base s = s) ∧
    (∀ s : KBState, initialize_knowledge_base (initialize_knowledge_base s) =
      initialize_knowledge_base s) := by
  refine ⟨?_, ?_, ?_⟩
  · intro s h
    have he : s.entries = [] := List.length_eq_zero.mp h
    cases s with
    | mk es =>
      simp only at he
      subst he
      exact ⟨rfl, rfl⟩
  · intro s h
    have hne : ¬ s.entries.length = 0 := by omega
    simp [initialize_knowledge_base, hne]
  · intro s
    by_cases h : s.entries.length = 0
    · have h1 : initialize_knowledge_base s = add_contexts s default_contexts := by
        simp [initialize_knowledge_base, h]
      have h5 : (add_contexts s default_contexts).entries.length = 5 := by
        rw [add_contexts_length, h]
        rfl
      rw [h1]
      simp [initialize_knowledge_base, h5]
    · simp [initialize_knowledge_base, h]

/-- Embeds the Python slice `generated_code[:200]` (src/rag_system.py
line 245): the first 200 characters (code points). -/
def strTake (s : String) (n : Nat) : String := String.mk (s.data.take n)

/-- The six fixed prompt lines pushed before the retrieved context
(src/rag_system.py lines 228-235). -/
def promptHeaderParts : List String :=
  ["You are a data analyst agent with access to the following helpers:",
   "- scrape_table_from_url(url)",
   "- run_duckdb_query(query, files=None)",
   "- plot_and_encode_base64(fig)",
   "",
   "Relevant context for this type of task:"]

/-- The five fixed closing prompt lines (src/rag_system.py
lines 247-253). -/
def promptTailParts (query : String) : List String :=
  ["",
   "Task: " ++ query,
   "",
   "Generate Python code that uses the helpers above. The final answer must be stored in a variable named 'result'.",
   "Return only the code, no explanation."]

/-- The per-interaction body of the successful-patterns section
(src/rag_system.py lines 242-245): two lines for each retrieved
interaction whose `success_score` is truthy and exceeds 0.7, nothing for
the others. -/
def patternLines (similar_interactions : List Interaction) : List String :=
  similar_interactions.flatMap fun i =>
    if scoreQualifies i.success_score then
      ["- Query: " ++ i.user_query,
       "- Successful code: " ++ strTake i.generated_code 200 ++ "..."]
    else []

/-- Embeds the prompt assembly of `RAGAdaptiveSystem.get_adaptive_prompt`
(src/rag_system.py lines 219-255) as the list of `prompt_parts` before the
final newline join.  The two retrieval calls feeding it are passed in as
arguments (`relevant_context`, `similar_interactions`); the section header
is appended under `if similar_interactions:`, which is Python truthiness
of the LIST, not of the qualifying sub-list. -/
def get_adaptive_prompt_parts (relevant_context : List String)
    (similar_interactions : List Interaction) (query : String) : List String :=
  promptHeaderParts ++
    relevant_context.map (fun c => "- " ++ c) ++
    (if similar_interactions.isEmpty then []
     else "\nSimilar successful patterns:" :: patternLines similar_interactions) ++
    promptTailParts query

/-- Embeds the final `"\n".join(prompt_parts)` (src/rag_system.py
line 255). -/
def get_adaptive_prompt (relevant_context : List String)
    (similar_interactions : List Interaction) (query : String) : String :=
  String.intercalate "\n" (get_adaptive_prompt_parts relevant_context similar_interactions query)

theorem dash_ne_header (c : String) :
    "- " ++ c ≠ "\nSimilar successful patterns:" := by
  intro hcontr
  have hd := congrArg String.data hcontr
  simp at hd

theorem task_ne_header (c : String) :
    "Task: " ++ c ≠ "\nSimilar successful patterns:" := by
  intro hcontr
  have hd := congrArg String.data hcontr
  simp at hd

theorem header_ne_dash (c : String) :
    "\nSimilar successful patterns:" ≠ "- " ++ c :=
  Ne.symm (dash_ne_header c)

theorem header_ne_task (c : String) :
    "\nSimilar successful patterns:" ≠ "Task: " ++ c :=
  Ne.symm (task_ne_header c)

theorem patternLines_length (si : List Interaction) :
    (patternLines si).length =
      2 * (si.filter (fun i => scoreQualifies i.success_score)).length := by
  induction si with
  | nil => rfl
  | cons a as ih =>
    rw [show patternLines (a :: as) =
        (if scoreQualifies a.success_score then
          ["- Query: " ++ a.user_query,
           "- Successful code: " ++ strTake a.generated_code 200 ++ "..."]
         else []) ++ patternLines as from rfl]
    rw [List.length_append, ih, List.filter_cons]
    cases h : scoreQualifies a.success_score <;> simp [h] ; omega

/-- C5 (amended): the prompt contains the "Similar successful patterns:"
header line if and only if the retrieved interaction list is non-empty
(regardless of scores); each retrieved interaction whose score qualifies
(truthy and strictly above 0.7) contributes its query line and the first
200 characters of its code; and the part count equals the fixed 11 lines
plus one context bullet per retrieved document plus, when any interaction
was retrieved, one header line plus exactly two lines per qualifying
interaction — interactions at or below the threshold contribute no
lines. -/
theorem get_adaptive_prompt_patterns :
    (∀ rc si q, "\nSimilar successful patterns:" ∈ get_adaptive_prompt_parts rc si q ↔
      si ≠ []) ∧
    (∀ rc si q i, i ∈ si → scoreQualifies i.success_score = true →
      "- Query: " ++ i.user_query ∈ get_adaptive_prompt_parts rc si q ∧
      "- Successful code: " ++ strTake i.generated_code 200 ++ "..." ∈
        get_adaptive_prompt_parts rc si q) ∧
    (∀ rc si q, (get_adaptive_prompt_parts rc si q).length =
      11 + rc.length +
        (if si.isEmpty then 0
         else 1 + 2 * (si.filter (fun i => scoreQualifies i.success_score)).length)) := by
  refine ⟨?_, ?_, ?_⟩
  · intro rc si q
    constructor
    · intro hmem hsi
      subst hsi
      simp [get_adaptive_prompt_parts, promptHeaderParts, promptTailParts,
        dash_ne_header, task_ne_header, header_ne_dash, header_ne_task] at hmem
    · intro hsi
      have hne : si.isEmpty = false := by
        cases si with
        | nil => exact absurd rfl hsi
        | cons a as => rfl
      simp [get_adaptive_prompt_parts, hne]
  · intro rc si q i hi hq
    have hne : si.isEmpty = false := by
      cases si with
      | nil => cases hi
      | cons a as => rfl
    have hC : get_adaptive_prompt_parts rc si q =
        (promptHeaderParts ++ rc.map (fun c => "- " ++ c)) ++
          ("\nSimilar successful patterns:" :: patternLines si) ++
          promptTailParts q := by
      simp [get_adaptive_prompt_parts, hne]
    constructor
    · have h1 : "- Query: " ++ i.user_query ∈ patternLines si := by
        simp only [patternLines, List.mem_flatMap]
        exact ⟨i, hi, by simp [hq]⟩
      rw [hC]
      exact List.mem_append_left _
        (List.mem_append_right _ (List.mem_cons_of_mem _ h1))
    · have h2 : "- Successful code: " ++ strTake i.generated_code 200 ++ "..." ∈
          patternLines si := by
        simp only [patternLines, List.mem_flatMap]
        exact ⟨i, hi, by simp [hq]⟩
      rw [hC]
      exact List.mem_append_left _
        (List.mem_append_right _ (List.mem_cons_of_mem _ h2))
  · intro rc si q
    cases si with
    | nil =>
      simp [get_adaptive_prompt_parts, promptHeaderParts, promptTailParts]
      omega
    | cons a as =>
      simp [get_adaptive_prompt_parts, promptHeaderParts, promptTailParts,
        patternLines_length, List.filter_cons]
      cases h : scoreQualifies a.success_score <;> simp [h] <;> omega

/-- Witness for C5: the amended theorem applied to one qualifying
retrieved interaction. -/
theorem get_adaptive_prompt_patterns_witness :
    (sampleInteraction ∈ [sampleInteraction] ∧
      scoreQualifies sampleInteraction.success_score = true) ∧
    ([sampleInteraction] ≠ ([] : List Interaction) ∧
      "\nSimilar successful patterns:" ∈
        get_adaptive_prompt_parts [] [sampleInteraction] "sum task") ∧
    "- Query: " ++ sampleInteraction.user_query ∈
      get_adaptive_prompt_parts [] [sampleInteraction] "sum task" := by
  have hq : scoreQualifies sampleInteraction.success_score = true := by
    show scoreQualifies (some 0.8) = true
    exact scoreQualifies_pos (by norm_num)
  refine ⟨⟨by simp, hq⟩, ⟨by simp, ?_⟩, ?_⟩
  · exact (get_adaptive_prompt_patterns.1 [] [sampleInteraction] "sum task").mpr (by simp)
  · exact (get_adaptive_prompt_patterns.2.1 [] [sampleInteraction] "sum task"
      sampleInteraction (by simp) hq).1

/-- Retrieved interaction whose score does not exceed the threshold. -/
def lowScoreInteraction : Interaction :=
  { timestamp := "2024-01-01T00:00:00"
    user_query := "plot something"
    generated_code := "result = 1"
    execution_result := PyValue.int 1
    user_feedback := Option.none
    success_score := some 0.5
    context_used := [] }

/-- C5 counterexample: with one retrieved interaction of score 0.5 — so
NO retrieved interaction has score above 0.7 — the prompt still contains
the "Similar successful patterns:" header line, refuting the claimed
if-and-only-if. -/
theorem prompt_header_without_qualifying :
    scoreQualifies lowScoreInteraction.success_score = false ∧
    "\nSimilar successful patterns:" ∈
      get_adaptive_prompt_parts [] [lowScoreInteraction] "task text" := by
  constructor
  · show scoreQualifies (some 0.5) = false
    exact scoreQualifies_le (by norm_num)
  · simp [get_adaptive_prompt_parts]

/-- Witness for C9: the theorem applied to the empty collection and to a
concrete one-entry collection. -/
theorem initialize_knowledge_base_witness :
    (([] : List ContextEntry).length = 0 ∧
      (initialize_knowledge_base { entries := [] }).entries.length = 5) ∧
    ((0 : Nat) < 1 ∧
      initialize_knowledge_base
          { entries := [{ id := mkContextId 0, content := "c", metadata := [] }] } =
        { entries := [{ id := mkContextId 0, content := "c", metadata := [] }] }) :=
  ⟨⟨rfl, (initialize_knowledge_base_correct.1 { entries := [] } rfl).2⟩,
   ⟨by decide,
    initialize_knowledge_base_correct.2.1
      { entries := [{ id := mkContextId 0, content := "c", metadata := [] }] }
      (by decide)⟩⟩

/-- Combined outcome of the two external calls inside
`retrieve_relevant_context`: either the `results` mapping's `documents`
value (a list of per-query document lists) came back, or the embedding or
the index call raised and the except arm runs. -/
inductive QueryOutcome where
  | ok (documents : List (List String))
  | err (msg : String)

/-- Embeds `RAGAdaptiveSystem.retrieve_relevant_context`
(src/rag_system.py lines 117-128).  The embedding model and the ChromaDB
query are external collaborators, so their combined outcome is the
argument; the source computes
`results['documents'][0] if results['documents'] else []` and the except
arm logs and returns `[]`.  The function is total: every outcome maps to
a list, no exception propagates. -/
def retrieve_relevant_context (outcome : QueryOutcome) : List String :=
  match outcome with
  | QueryOutcome.err _ => []
  | QueryOutcome.ok documents =>
    match documents with
    | [] => []
    | d :: _ => d

/-- C8: retrieval returns the first (rank-ordered) document list, bounded
by `top_k` whenever the backend respects its `n_results` contract; every
error outcome — and the empty-collection outcome, where ChromaDB returns
one empty document list — produces the empty sequence, and the function
is total, so nothing is raised to the caller. -/
theorem retrieve_relevant_context_safe :
    (∀ e, retrieve_relevant_context (QueryOutcome.err e) = []) ∧
    retrieve_relevant_context (QueryOutcome.ok [[]]) = [] ∧
    retrieve_relevant_context (QueryOutcome.ok []) = [] ∧
    (∀ docs d, retrieve_relevant_context (QueryOutcome.ok docs) = d →
      d = [] ∨ docs.head? = some d) ∧
    (∀ (top_k : Nat) docs, (∀ d ∈ docs, d.length ≤ top_k) →
      (retrieve_relevant_context (QueryOutcome.ok docs)).length ≤ top_k) := by
  refine ⟨fun e => rfl, rfl, rfl, ?_, ?_⟩
  · intro docs d h
    cases docs with
    | nil => left; exact h.symm
    | cons d0 rest => right; rw [← h]; rfl
  · intro top_k docs h
    cases docs with
    | nil => simp [retrieve_relevant_context]
    | cons d0 rest => exact h d0 (by simp)

/-- Witness for C8: the theorem applied to a concrete ranked result and a
concrete bound. -/
theorem retrieve_relevant_context_safe_witness :
    (∀ d ∈ [["doc one", "doc two"]], d.length ≤ 3) ∧
    (retrieve_relevant_context (QueryOutcome.ok [["doc one", "doc two"]])).length ≤ 3 :=
  ⟨by simp,
   retrieve_relevant_context_safe.2.2.2.2 3 [["doc one", "doc two"]] (by simp)⟩

/-- An interaction as it sits in `rag_system.interaction_history`,
together with the optional dynamic `interaction_id` attribute that
`submit_feedback` probes with `hasattr` (src/main.py line 219).  The
`Interaction` dataclass declares no such field and no code under src/
ever assigns one, so every stored record has `interaction_id_attr =
none`; the field exists in the model precisely so that the `hasattr`
test can be embedded. -/
structure StoredInteraction where
  base : Interaction
  interaction_id_attr : Option String

/-- The request body of the feedback endpoint (src/main.py lines 55-58). -/
structure FeedbackRequest where
  interaction_id : String
  feedback : String
  success_score : Option Rat

/-- Caller-visible outcome of `submit_feedback`: the success JSON, the
`HTTPException(404)` raised inside the try block, or the generic
500 JSON produced by the `except Exception` arm. -/
inductive FeedbackOutcome where
  | success
  | notFound
  | genericFailure (msg : String)

/-- The mutation performed on a matched interaction (src/main.py
lines 220-222): the feedback text is stored, and the score only when one
was supplied. -/
def applyFeedback (i : Interaction) (req : FeedbackRequest) : Interaction :=
  { i with
    user_feedback := some req.feedback
    success_score :=
      match req.success_score with
      | some q => some q
      | Option.none => i.success_score }

/-- The `for interaction in rag_system.interaction_history` loop of
`submit_feedback` (src/main.py lines 218-230): the first stored record
that has an `interaction_id` attribute equal to the request's id is
updated (and re-learned from when its score qualifies) and the loop
returns success; a fall-through raises `HTTPException(404)`, modelled as
the `notFound` outcome of the try block. -/
def submit_feedback_loop : KBState → List StoredInteraction → FeedbackRequest →
    KBState × List StoredInteraction × FeedbackOutcome
  | kb, [], _ => (kb, [], FeedbackOutcome.notFound)
  | kb, si :: rest, req =>
    match si.interaction_id_attr with
    | some iid =>
      if iid = req.interaction_id then
        let upd := applyFeedback si.base req
        let kb2 := if scoreQualifies upd.success_score then
            learn_from_successful_interaction kb upd
          else kb
        (kb2, { si with base := upd } :: rest, FeedbackOutcome.success)
      else
        match submit_feedback_loop kb rest req with
        | (kb2, rest2, out) => (kb2, si :: rest2, out)
    | Option.none =>
      match submit_feedback_loop kb rest req with
      | (kb2, rest2, out) => (kb2, si :: rest2, out)

/-- Embeds the `submit_feedback` endpoint (src/main.py lines 211-236).
The whole body sits in a `try` block whose `except Exception` arm returns
the generic 500 JSON; `fastapi.HTTPException` derives from `Exception`,
so the deliberate `raise HTTPException(404)` after the loop is caught by
that arm and surfaces as the generic failure, not as a 404. -/
def submit_feedback (kb : KBState) (history : List StoredInteraction)
    (req : FeedbackRequest) : KBState × List StoredInteraction × FeedbackOutcome :=
  match submit_feedback_loop kb history req with
  | (kb2, h2, FeedbackOutcome.notFound) =>
    (kb2, h2, FeedbackOutcome.genericFailure
      "Failed to submit feedback: 404: Interaction not found")
  | r => r

theorem submit_feedback_loop_all_none :
    ∀ (history : List StoredInteraction) (kb : KBState) (req : FeedbackRequest),
      (∀ si ∈ history, si.interaction_id_attr = Option.none) →
      (submit_feedback_loop kb history req).2.2 = FeedbackOutcome.notFound := by
  intro history
  induction history with
  | nil => intro kb req h; rfl
  | cons si rest ih =>
    intro kb req h
    have hsi : si.interaction_id_attr = Option.none := h si (by simp)
    have hrec := ih kb req (fun s hs => h s (by simp [hs]))
    rcases hE : submit_feedback_loop kb rest req with ⟨kb2, rest2, out⟩
    rw [hE] at hrec
    simp only at hrec
    simp [submit_feedback_loop, hsi, hE, hrec]

/-- C7: every stored interaction lacks the `interaction_id` attribute
(the dataclass has no such field and nothing assigns one), so the loop
never matches and the endpoint answers EVERY feedback request — whatever
its id — with the generic 500 failure; and no request whatsoever can
observe the distinct not-found outcome, because the `except Exception`
arm swallows the endpoint's own `HTTPException(404)`. -/
theorem submit_feedback_never_not_found :
    (∀ (kb : KBState) (history : List StoredInteraction) (req : FeedbackRequest),
      (∀ si ∈ history, si.interaction_id_attr = Option.none) →
      (submit_feedback kb history req).2.2 =
        FeedbackOutcome.genericFailure
          "Failed to submit feedback: 404: Interaction not found") ∧
    (∀ (kb : KBState) (history : List StoredInteraction) (req : FeedbackRequest),
      (submit_feedback kb history req).2.2 ≠ FeedbackOutcome.notFound) := by
  constructor
  · intro kb history req h
    have hout := submit_feedback_loop_all_none history kb req h
    rcases hE : submit_feedback_loop kb history req with ⟨kb2, h2, out⟩
    rw [hE] at hout
    simp only at hout
    subst hout
    simp [submit_feedback, hE]
  · intro kb history req
    rcases hE : submit_feedback_loop kb history req with ⟨kb2, h2, out⟩
    cases out <;> simp [submit_feedback, hE]

/-- Witness for C7: a concrete history of one attribute-less stored
interaction and a concrete request. -/
theorem submit_feedback_never_not_found_witness :
    (∀ si ∈ [StoredInteraction.mk sampleInteraction Option.none],
      si.interaction_id_attr = Option.none) ∧
    (submit_feedback { entries := [] }
        [StoredInteraction.mk sampleInteraction Option.none]
        { interaction_id := "interaction_20240101_000000_1234"
          feedback := "great"
          success_score := Option.none }).2.2 =
      FeedbackOutcome.genericFailure
        "Failed to submit feedback: 404: Interaction not found" :=
  ⟨by simp,
   submit_feedback_never_not_found.1 { entries := [] }
     [StoredInteraction.mk sampleInteraction Option.none]
     { interaction_id := "interaction_20240101_000000_1234"
       feedback := "great"
       success_score := Option.none }
     (by simp)⟩

/-- What one name of the executed code's global scope is bound to. -/
inductive Binding where
  | builtinsModule
  | helper (name : String)
  | library (name : String)

/-- Embeds the `allowed_globals` dict literal of `safe_exec`
(src/main.py lines 118-126), in source order: the FULL builtins module is
passed through under `__builtins__`, followed by the three whitelisted
helpers and the three library handles.  The executed code runs against
this dict and a fresh empty `local_vars` dict, so it is isolated from the
caller's variables. -/
def allowed_globals : List (String × Binding) :=
  [("__builtins__", Binding.builtinsModule),
   ("scrape_table_from_url", Binding.helper "scrape_table_from_url"),
   ("run_duckdb_query", Binding.helper "run_duckdb_query"),
   ("plot_and_encode_base64", Binding.helper "plot_and_encode_base64"),
   ("pd", Binding.library "pandas"),
   ("np", Binding.library "numpy"),
   ("plt", Binding.library "matplotlib.pyplot")]

/-- Kinds of capability a binding hands to the executed code. -/
inductive Capability where
  | filesystem
  | network
  | process
  | dynamicImport
  | tableScraping
  | sqlQuery
  | plotEncoding
  | dataFrameOps
  | numericOps
  | plotting
deriving DecidableEq

/-- Modelled from CPython semantics (src/main.py passes the interpreter's
builtins module through unmodified): the builtins namespace contains
`open` (filesystem access) and `__import__` (dynamic import of any
installed module, hence `os`/`subprocess` process access and `socket`
network access), besides `eval` and `exec`.  The three helpers expose
their single data-analysis capability; the libraries expose data-frame,
numeric and plotting operations. -/
def Binding.capabilities : Binding → List Capability
  | Binding.builtinsModule =>
    [Capability.filesystem, Capability.network, Capability.process,
     Capability.dynamicImport]
  | Binding.helper "scrape_table_from_url" => [Capability.tableScraping]
  | Binding.helper "run_duckdb_query" => [Capability.sqlQuery]
  | Binding.helper "plot_and_encode_base64" => [Capability.plotEncoding]
  | Binding.helper _ => []
  | Binding.library "pandas" => [Capability.dataFrameOps]
  | Binding.library "numpy" => [Capability.numericOps]
  | Binding.library "matplotlib.pyplot" => [Capability.plotting]
  | Binding.library _ => []

/-- All capabilities reachable from the scope `safe_exec` gives the
executed code. -/
def availableCapabilities : List Capability :=
  (allowed_globals.map Prod.snd).flatMap Binding.capabilities

/-- The capabilities of the three whitelisted helpers and the three
library handles alone — what the spec asserts the executed code is
limited to. -/
def whitelistedCapabilities : List Capability :=
  [Capability.tableScraping, Capability.sqlQuery, Capability.plotEncoding,
   Capability.dataFrameOps, Capability.numericOps, Capability.plotting]

/-- C2 counterexample: the scope `safe_exec` passes to the executed code
grants filesystem, process and network capability through the
`__builtins__` entry (`open`, `__import__`), none of which belongs to the
whitelisted helper/library capability set — refuting the claim that the
executed code has no capability beyond the three helpers and three
libraries. -/
theorem safe_exec_scope_leaks_builtins :
    Capability.filesystem ∈ availableCapabilities ∧
    Capability.filesystem ∉ whitelistedCapabilities ∧
    Capability.process ∈ availableCapabilities ∧
    Capability.process ∉ whitelistedCapabilities ∧
    Capability.network ∈ availableCapabilities ∧
    Capability.network ∉ whitelistedCapabilities := by
  decide

/-- C2 (amended): the executed code's global scope binds exactly the
seven names `__builtins__`, the three helpers and the three library
handles — so it is isolated from the caller's variables — but its
capability set is the whitelisted helper/library set PLUS everything the
full builtins module grants (filesystem, network, process, dynamic
import); the no-extra-capability part of the contract does not hold. -/
theorem safe_exec_scope_contents :
    allowed_globals.map Prod.fst =
      ["__builtins__", "scrape_table_from_url", "run_duckdb_query",
       "plot_and_encode_base64", "pd", "np", "plt"] ∧
    (∀ c : Capability, c ∈ availableCapabilities ↔
      (c ∈ whitelistedCapabilities ∨ c ∈ Binding.builtinsModule.capabilities)) := by
  refine ⟨rfl, ?_⟩
  intro c
  cases c <;> decide

/-- Behaviour of the worker thread `runner` executing the generated code
(src/main.py lines 128-130): it finishes normally after `t` seconds with
the value `local_vars.get('result', None)`, raises after `t` seconds, or
never finishes. -/
inductive WorkerBehavior where
  | finishes (t : Nat) (bound : PyValue)
  | raises (t : Nat) (tb : String)
  | diverges

/-- The pair `(result, error)` that `safe_exec` hands back. -/
structure SafeExecReturn where
  result : Option PyValue
  error : Option String

/-- The diagnostic text `traceback.format_exc()` yields when
`future.result(timeout=...)` raises its timeout error. -/
def timeoutTraceback : String :=
  "concurrent.futures._base.TimeoutError"

/-- Embeds `safe_exec` (src/main.py lines 111-136) together with the
documented semantics of `concurrent.futures`: `future.result(timeout)`
raises the timeout error once `timeout` seconds elapse with the worker
still running, the `except Exception` arm turns any exception (a worker
exception re-raised by `future.result`, or the timeout error) into
`(None, traceback.format_exc())` — and leaving the
`with ThreadPoolExecutor(...)` block runs `executor.shutdown(wait=True)`,
which JOINS the worker thread before `safe_exec` can return.  The model
therefore returns `some (value, t)`: the caller-visible pair together
with the second at which the call actually returns — always the worker's
own completion time — and `none` when the worker never finishes, in which
case `safe_exec` never returns. -/
def safe_exec (w : WorkerBehavior) (timeout : Nat) : Option (SafeExecReturn × Nat) :=
  match w with
  | WorkerBehavior.diverges => Option.none
  | WorkerBehavior.finishes t v =>
    if t ≤ timeout then some ({ result := some v, error := Option.none }, t)
    else some ({ result := Option.none, error := some timeoutTraceback }, t)
  | WorkerBehavior.raises t tb =>
    if t ≤ timeout then some ({ result := Option.none, error := some tb }, t)
    else some ({ result := Option.none, error := some timeoutTraceback }, t)

/-- C3: a worker that never finishes (such as `while True: pass`) makes
`safe_exec` hang forever — the shutdown join never returns — so the call
does NOT return a timeout failure once the timeout elapses and the
process is not answerable, contradicting the claim; a worker that
finishes after the timeout does produce `(None, timeout diagnostic)` with
no partial result, but only at the worker's own completion time, not when
the timeout elapses. -/
theorem safe_exec_diverging_worker_hangs :
    safe_exec WorkerBehavior.diverges 120 = Option.none ∧
    (∀ (t timeout : Nat) (v : PyValue), timeout < t →
      safe_exec (WorkerBehavior.finishes t v) timeout =
        some ({ result := Option.none, error := some timeoutTraceback }, t)) := by
  refine ⟨rfl, ?_⟩
  intro t timeout v h
  have hn : ¬ t ≤ timeout := by omega
  simp [safe_exec, hn]

/-- Witness for C3: the theorem applied to a worker finishing one second
after the default 120-second timeout. -/
theorem safe_exec_diverging_worker_hangs_witness :
    (120 : Nat) < 121 ∧
    safe_exec (WorkerBehavior.finishes 121 (PyValue.int 7)) 120 =
      some ({ result := Option.none, error := some timeoutTraceback }, 121) :=
  ⟨by decide,
   safe_exec_diverging_worker_hangs.2 121 120 (PyValue.int 7) (by decide)⟩

end DataAnalystAgent
